import Mathlib

set_option linter.unusedVariables false

/-! Shallow embedding of the NAT traversal subsystem of the node: the gateway
port mapping maintenance code (src/nat/mapping/port_mapping.go) and the
internet connection sharing service (src/nat/service_ics.go).

The gateway, the metrics sink, the PowerShell executor and the host network
introspection (net.Interfaces, net.ParseCIDR) are external collaborators
injected into the code; they are modelled as explicit behaviour functions.
Each embedded operation returns, next to its Go result and updated state, the
list of externally observable events it performs (gateway calls, metric
notifications, privileged command dispatches, lock operations and accesses to
the shared fields), in program order. -/

/-- Go error values as this code builds them: errors.New, errors.Wrap with a
message around a cause, and the fmt.Errorf of addMapping that records the
port number around the cause. -/
inductive GoErr where
  | errorNew (msg : String)
  | wrapped (msg : String) (cause : GoErr)
  | portErr (port : Nat) (cause : GoErr)
deriving DecidableEq, Repr

/-- errors.Wrap applied to a possibly nil error: pkg/errors returns nil when
the wrapped error is nil, so a nil result stays nil. -/
def errorsWrap (e : Option GoErr) (msg : String) : Option GoErr :=
  e.map (GoErr.wrapped msg)

/-- The resErr accumulation pattern of Disable: resErr is overwritten only
while it is still nil, so the first non-nil error in program order wins. -/
def firstErr : Option GoErr → Option GoErr → Option GoErr
  | some e, _ => some e
  | none, b => b

/-- First non-nil entry of a list of phase outcomes. -/
def firstSome : List (Option GoErr) → Option GoErr
  | [] => none
  | o :: rest => firstErr o (firstSome rest)

/-! ### Gateway port mapping (src/nat/mapping/port_mapping.go) -/

/-- One minute of Go time.Duration, in nanoseconds. -/
def goMinute : Nat := 60 * 1000000000

/-- const mapTimeout = 20 * time.Minute. -/
def mapTimeout : Nat := 20 * goMinute

/-- const mapUpdateInterval = 15 * time.Minute. -/
def mapUpdateInterval : Nat := 15 * goMinute

/-- Externally observable events of the port mapping code: gateway AddMapping
and DeleteMapping calls with their arguments, and the two metrics sink
notifications. -/
inductive MapEvent where
  | addCall (protocol : String) (extPort intPort : Nat) (name : String) (lease : Nat)
  | delCall (protocol : String) (extPort intPort : Nat)
  | sentSuccess
  | sentFail (e : GoErr)
deriving DecidableEq, Repr

/-- addMapping: one invocation against a gateway whose AddMapping behaviour is
the function add from the requested lease duration to the returned error
(none for nil). It first calls AddMapping with mapTimeout; on nil it returns
nil. Otherwise it calls AddMapping again with lease 0 and returns nil on
success, or the second error wrapped with the port number. The second
component is the list of gateway calls made, in order. -/
def addMappingTr (add : Nat → Option GoErr) (protocol : String) (extPort intPort : Nat)
    (name : String) : Option GoErr × List MapEvent :=
  match add mapTimeout with
  | none => (none, [MapEvent.addCall protocol extPort intPort name mapTimeout])
  | some _ =>
    match add 0 with
    | none =>
      (none, [MapEvent.addCall protocol extPort intPort name mapTimeout,
              MapEvent.addCall protocol extPort intPort name 0])
    | some e2 =>
      (some (GoErr.portErr extPort e2),
       [MapEvent.addCall protocol extPort intPort name mapTimeout,
        MapEvent.addCall protocol extPort intPort name 0])

/-- One iteration of the mapPort loop at iteration index i, against a gateway
whose AddMapping behaviour at iteration i is g i: the addMapping gateway
calls followed by exactly one metrics notification, success on nil error and
failure carrying the error otherwise. The sink return values are discarded by
the loop, so they do not appear among the iteration inputs. -/
def mapIter (g : Nat → Nat → Option GoErr) (i : Nat) (protocol : String)
    (extPort intPort : Nat) (name : String) : List MapEvent :=
  match addMappingTr (g i) protocol extPort intPort name with
  | (none, calls) => calls ++ [MapEvent.sentSuccess]
  | (some e, calls) => calls ++ [MapEvent.sentFail e]

/-- The for loop of mapPort, starting at iteration index i. The select at the
end of each iteration either observes the closed quit channel (after
remaining further timer waits) and returns, or waits mapUpdateInterval and
loops; remaining counts the iterations whose select takes the timer branch
before the one that observes cancellation. -/
def mapPortLoop (g : Nat → Nat → Option GoErr) (protocol : String) (extPort intPort : Nat)
    (name : String) : Nat → Nat → List MapEvent
  | i, 0 => mapIter g i protocol extPort intPort name
  | i, Nat.succ k =>
    mapIter g i protocol extPort intPort name ++
      mapPortLoop g protocol extPort intPort name (i + 1) k

/-- A full run of mapPort for a run in which the select of iteration cancelAt
observes the closed quit channel: the loop iterations followed by the single
deferred DeleteMapping call. sinkRes gives the value each sink notification
would return and delRes the value DeleteMapping returns; both are only
logged by the code, never consulted, so the run does not depend on them. -/
def mapPortRun (g : Nat → Nat → Option GoErr) (sinkRes : Nat → Option GoErr)
    (delRes : Option GoErr) (cancelAt : Nat) (protocol : String) (extPort intPort : Nat)
    (name : String) : List MapEvent :=
  mapPortLoop g protocol extPort intPort name 0 cancelAt ++
    [MapEvent.delCall protocol extPort intPort]

/-- Panic raised by the Go runtime on close of an already closed channel. -/
inductive GoPanic where
  | closeOfClosedChannel
deriving DecidableEq, Repr

/-- close(mapperQuit) on a channel whose closed flag is the argument: closing
an open channel closes it, closing a closed channel panics. -/
def goClose (closed : Bool) : Except GoPanic Bool :=
  if closed then Except.error GoPanic.closeOfClosedChannel else Except.ok true

/-- The two cancel handles the package returns: the closure close(mapperQuit)
returned by PortMapping, and the empty closure returned by
GetPortMappingFunc when no mapping is needed. -/
inductive CancelHandle where
  | noopHandle
  | closeHandle
deriving DecidableEq, Repr

/-- Invoking a cancel handle on the quit channel state: the noop handle
leaves the channel untouched and the PortMapping handle closes it. -/
def runCancel : CancelHandle → Bool → Except GoPanic Bool
  | CancelHandle.noopHandle, st => Except.ok st
  | CancelHandle.closeHandle, st => goClose st

/-- Calling the PortMapping cancel handle twice starting from an open quit
channel: the second call reaches close on a closed channel. -/
def cancelTwice : Except GoPanic Bool :=
  match runCancel CancelHandle.closeHandle false with
  | Except.ok st => runCancel CancelHandle.closeHandle st
  | Except.error p => Except.error p

/-- Arguments of the mapPort goroutine spawned by PortMapping. -/
structure MapperArgs where
  protocol : String
  extPort : Nat
  intPort : Nat
  name : String
deriving DecidableEq, Repr

/-- PortMapping(protocol, port, name, metricsSender): spawns mapPort with the
single port argument passed as both extPort and intPort, and returns the
closure that closes the quit channel. -/
def PortMappingSpawn (protocol : String) (port : Nat) (name : String) :
    Option MapperArgs × CancelHandle :=
  (some { protocol := protocol, extPort := port, intPort := port, name := name },
   CancelHandle.closeHandle)

/-- GetPortMappingFunc(pubIP, outIP, protocol, port, description, sender):
delegates to PortMapping when pubIP differs from outIP and otherwise returns
the empty closure, spawning nothing. -/
def GetPortMappingFuncModel (pubIP outIP protocol : String) (port : Nat)
    (description : String) : Option MapperArgs × CancelHandle :=
  if pubIP ≠ outIP then PortMappingSpawn protocol port description
  else (none, CancelHandle.noopHandle)

/-! ### Internet connection sharing service (src/nat/service_ics.go) -/

/-- const enablePublicSharing. -/
def enablePublicSharing : String := "$config.EnableSharing(0)"

/-- const enablePrivateSharing. -/
def enablePrivateSharing : String := "$config.EnableSharing(1)"

/-- const disableSharing. -/
def disableSharing : String := "$config.DisableSharing()"

/-- RuleForwarding: the forwarding rule, identified by its source subnet. -/
structure RuleForwarding where
  SourceAddress : String
deriving DecidableEq, Repr

/-- The serviceICS shared state: the map from interface name to rule and the
saved RemoteAccess startup mode. The mutex and the injected powerShell
executor are modelled separately (lock events and the environment). The map
is a list of key-value pairs with unique keys, in insertion order. -/
structure ServiceICS where
  ifaces : List (String × RuleForwarding)
  remoteAccessStatus : String
deriving DecidableEq, Repr

/-- Go map assignment ifaces[k] = v: overwrite the existing entry for k, or
append a new one. -/
def mapSet (m : List (String × RuleForwarding)) (k : String) (v : RuleForwarding) :
    List (String × RuleForwarding) :=
  if m.any (fun p => p.1 == k) then m.map (fun p => if p.1 == k then (k, v) else p)
  else m ++ [(k, v)]

/-- Go delete(ifaces, k). -/
def mapDel (m : List (String × RuleForwarding)) (k : String) :
    List (String × RuleForwarding) :=
  m.filter (fun p => p.1 != k)

/-- One address of a host interface, as Go type-switches it in contains:
either a *net.IPNet or a *net.IPAddr carrying an IP (modelled as a Nat), or
any other net.Addr implementation, which leaves the switched ip nil. -/
inductive NetAddr where
  | ipNet (ip : Nat)
  | ipAddr (ip : Nat)
  | otherAddr
deriving DecidableEq, Repr

/-- The ip a net.Addr contributes in contains; none for the nil ip of an
unrecognized address type, which IPNet.Contains rejects. -/
def netAddrIP : NetAddr → Option Nat
  | NetAddr.ipNet ip => some ip
  | NetAddr.ipAddr ip => some ip
  | NetAddr.otherAddr => none

/-- One host interface as returned by net.Interfaces: its numeric index, its
name, and the result of iface.Addrs(). -/
structure NetIface where
  index : Int
  name : String
  addrs : Except GoErr (List NetAddr)

/-- The external collaborators of serviceICS: net.ParseCIDR (returning the
parsed *net.IPNet as its Contains predicate over IPs), net.Interfaces, and
the injected powerShell executor returning the command output. -/
structure ICSEnv where
  parseCIDR : String → Except GoErr (Nat → Bool)
  netInterfaces : Except GoErr (List NetIface)
  powerShell : String → Except GoErr String

/-- contains(ipnet, addrs): true when some address yields an ip that the
subnet contains. -/
def containsGo (ipnet : Nat → Bool) (addrs : List NetAddr) : Bool :=
  addrs.any (fun a =>
    match netAddrIP a with
    | some ip => ipnet ip
    | none => false)

/-- The interface scan of getInterfaceBySubnet: Addrs failure aborts with a
wrapped error, the first interface owning a contained address wins, and an
exhausted scan yields the interface not found error. -/
def findIfaceBySubnet (ipnet : Nat → Bool) : List NetIface → Except GoErr String
  | [] => Except.error (GoErr.errorNew "interface not found")
  | i :: rest =>
    match i.addrs with
    | Except.error e =>
      Except.error (GoErr.wrapped "failed to get list of interface addresses" e)
    | Except.ok addrs =>
      if containsGo ipnet addrs then Except.ok i.name else findIfaceBySubnet ipnet rest

/-- getInterfaceBySubnet(subnet): parse the CIDR, enumerate the host
interfaces, and scan them for one whose address lies in the subnet. -/
def getInterfaceBySubnet (env : ICSEnv) (subnet : String) : Except GoErr String :=
  match env.parseCIDR subnet with
  | Except.error e => Except.error (GoErr.wrapped "failed to parse subnet from request" e)
  | Except.ok ipnet =>
    match env.netInterfaces with
    | Except.error e =>
      Except.error (GoErr.wrapped "failed to get a list of network interfaces" e)
    | Except.ok ifaces => findIfaceBySubnet ipnet ifaces

/-- Observable events of the sharing service: mutex operations, accesses to
the shared ifaces map and remoteAccessStatus field, and dispatches to the
powerShell executor. -/
inductive ICSEvent where
  | lockEv
  | unlockEv
  | ifacesWrite (k : String)
  | ifacesDelete (k : String)
  | ifacesIterate
  | statusRead
  | statusWrite
  | runPS (cmd : String)
deriving DecidableEq, Repr

/-- The PowerShell script applySharingConfig builds around the interface name
and the sharing action. -/
def icsScript (ifaceName action : String) : String :=
  "regsvr32 /s hnetcfg.dll;\n\t\t$netShare = New-Object -ComObject HNetCfg.HNetShare;\n\t\t$c = $netShare.EnumEveryConnection |? \x7b $netShare.NetConnectionProps.Invoke($_).Name -eq \"" ++
    ifaceName ++ "\" \x7d;\n\t\t$config = $netShare.INetSharingConfigurationForINetConnection.Invoke($c);" ++
    action

/-- applySharingConfig(action, ifaceName): validation of the action and
interface name before dispatch, then one powerShell execution whose error is
returned as is. -/
def applySharingConfig (env : ICSEnv) (action ifaceName : String) :
    Option GoErr × List ICSEvent :=
  if action.length = 0 then (some (GoErr.errorNew "empty action provided"), [])
  else if ifaceName.length = 0 then
    (some (GoErr.errorNew "empty interface name provided"), [])
  else
    match env.powerShell (icsScript ifaceName action) with
    | Except.ok _ => (none, [ICSEvent.runPS (icsScript ifaceName action)])
    | Except.error e => (some e, [ICSEvent.runPS (icsScript ifaceName action)])

/-- serviceICS.Add(rule): resolve the interface by subnet, apply the enable
private sharing action, and only then record the entry in the map under the
lock. Failure of either step leaves the state untouched. -/
def icsAdd (env : ICSEnv) (s : ServiceICS) (rule : RuleForwarding) :
    Option GoErr × ServiceICS × List ICSEvent :=
  match getInterfaceBySubnet env rule.SourceAddress with
  | Except.error e => (some (GoErr.wrapped "failed to find suitable interface" e), s, [])
  | Except.ok ifaceName =>
    match applySharingConfig env enablePrivateSharing ifaceName with
    | (some e, tr) =>
      (some (GoErr.wrapped "failed to enable internet connection sharing for internal interface" e),
       s, tr)
    | (none, tr) =>
      (none, { s with ifaces := mapSet s.ifaces ifaceName rule },
       tr ++ [ICSEvent.lockEv, ICSEvent.ifacesWrite ifaceName, ICSEvent.unlockEv])

/-- serviceICS.Del(rule): resolve the interface by subnet, apply the disable
sharing action, and only then remove the entry from the map under the lock. -/
def icsDel (env : ICSEnv) (s : ServiceICS) (rule : RuleForwarding) :
    Option GoErr × ServiceICS × List ICSEvent :=
  match getInterfaceBySubnet env rule.SourceAddress with
  | Except.error e => (some (GoErr.wrapped "failed to find suitable interface" e), s, [])
  | Except.ok ifaceName =>
    match applySharingConfig env disableSharing ifaceName with
    | (some e, tr) =>
      (some (GoErr.wrapped "failed to disable internet connection sharing for internal interface" e),
       s, tr)
    | (none, tr) =>
      (none, { s with ifaces := mapDel s.ifaces ifaceName },
       tr ++ [ICSEvent.lockEv, ICSEvent.ifacesDelete ifaceName, ICSEvent.unlockEv])

/-- The Get-Service command of enableRemoteAccessService. -/
def getStartupTypeCmd : String := "Get-Service RemoteAccess | foreach \x7b $_.StartType \x7d"

/-- enableRemoteAccessService: capture the current startup type into the
remoteAccessStatus field (without the lock), force automatic startup and
start the service. -/
def enableRemoteAccessService (env : ICSEnv) (s : ServiceICS) :
    Option GoErr × ServiceICS × List ICSEvent :=
  match env.powerShell getStartupTypeCmd with
  | Except.error e =>
    (some (GoErr.wrapped "failed to get RemoteAccess service startup type" e), s,
     [ICSEvent.runPS getStartupTypeCmd])
  | Except.ok status =>
    let s1 : ServiceICS := { s with remoteAccessStatus := status }
    match env.powerShell "Set-Service -Name RemoteAccess -StartupType automatic" with
    | Except.error e =>
      (some (GoErr.wrapped "failed to set RemoteAccess service startup type to automatic" e), s1,
       [ICSEvent.runPS getStartupTypeCmd, ICSEvent.statusWrite,
        ICSEvent.runPS "Set-Service -Name RemoteAccess -StartupType automatic"])
    | Except.ok _ =>
      match env.powerShell "Start-Service -Name RemoteAccess" with
      | Except.error e =>
        (some (GoErr.wrapped "failed to start RemoteAccess service" e), s1,
         [ICSEvent.runPS getStartupTypeCmd, ICSEvent.statusWrite,
          ICSEvent.runPS "Set-Service -Name RemoteAccess -StartupType automatic",
          ICSEvent.runPS "Start-Service -Name RemoteAccess"])
      | Except.ok _ =>
        (none, s1,
         [ICSEvent.runPS getStartupTypeCmd, ICSEvent.statusWrite,
          ICSEvent.runPS "Set-Service -Name RemoteAccess -StartupType automatic",
          ICSEvent.runPS "Start-Service -Name RemoteAccess"])

/-- The Get-WmiObject default route query of getPublicInterfaceName. -/
def routeQueryCmd : String :=
  "Get-WmiObject -Class Win32_IP4RouteTable | where \x7b $_.destination -eq \x270.0.0.0\x27 -and $_.mask -eq \x270.0.0.0\x27\x7d | foreach \x7b $_.InterfaceIndex \x7d"

/-- strconv.Atoi on the trimmed command output. -/
def goAtoi (s : String) : Except GoErr Int :=
  match s.toInt? with
  | some n => Except.ok n
  | none => Except.error (GoErr.errorNew ("strconv.Atoi: parsing " ++ s ++ ": invalid syntax"))

/-- getPublicInterfaceName: query the default route interface index, parse
it, and look it up among the enumerated interfaces. -/
def getPublicInterfaceName (env : ICSEnv) : Except GoErr String × List ICSEvent :=
  match env.powerShell routeQueryCmd with
  | Except.error e =>
    (Except.error (GoErr.wrapped "failed to get interface from the default route" e),
     [ICSEvent.runPS routeQueryCmd])
  | Except.ok out =>
    match goAtoi out.trim with
    | Except.error e =>
      (Except.error (GoErr.wrapped "failed to parse interface ID" e),
       [ICSEvent.runPS routeQueryCmd])
    | Except.ok ifaceID =>
      match env.netInterfaces with
      | Except.error e =>
        (Except.error (GoErr.wrapped "failed to get a list of network interfaces" e),
         [ICSEvent.runPS routeQueryCmd])
      | Except.ok ifaces =>
        match ifaces.find? (fun i => i.index == ifaceID) with
        | some i => (Except.ok i.name, [ICSEvent.runPS routeQueryCmd])
        | none =>
          (Except.error (GoErr.errorNew "interface not found"), [ICSEvent.runPS routeQueryCmd])

/-- serviceICS.Enable: enable the RemoteAccess service, resolve the public
interface, and apply the enable public sharing action to it, aborting on the
first failure. -/
def icsEnable (env : ICSEnv) (s : ServiceICS) : Option GoErr × ServiceICS × List ICSEvent :=
  match enableRemoteAccessService env s with
  | (some e, s1, tr) => (some (GoErr.wrapped "failed to Enable RemoteAccess service" e), s1, tr)
  | (none, s1, tr) =>
    match getPublicInterfaceName env with
    | (Except.error e, tr2) =>
      (some (GoErr.wrapped "failed to get public interface name" e), s1, tr ++ tr2)
    | (Except.ok ifaceName, tr2) =>
      match applySharingConfig env enablePublicSharing ifaceName with
      | (eOpt, tr3) =>
        (errorsWrap eOpt "failed to enable internet connection sharing", s1, tr ++ tr2 ++ tr3)

/-- The Set-Service restore command of Disable, built from the saved startup
mode read from the shared field. -/
def restoreCmdOf (s : ServiceICS) : String :=
  "Set-Service -Name RemoteAccess -StartupType " ++ s.remoteAccessStatus

/-- The range loop of Disable over the entries of the ifaces map: each entry
gets one Del call; errors are remembered first-wins and never stop the
iteration. -/
def disableDelLoop (env : ICSEnv) (s : ServiceICS) :
    List (String × RuleForwarding) → Option GoErr × ServiceICS × List ICSEvent
  | [] => (none, s, [])
  | (_, rule) :: rest =>
    let r := icsDel env s rule
    let r2 := disableDelLoop env r.2.1 rest
    (firstErr r.1 r2.1, r2.2.1, r.2.2 ++ r2.2.2)

/-- serviceICS.Disable: Del every recorded interface (continuing past
failures), restore the RemoteAccess startup mode, resolve the public
interface (falling back to the empty name on failure) and disable sharing on
it; the first error across all phases is returned. The map iteration and the
startup mode read happen without taking the mutex. -/
def icsDisable (env : ICSEnv) (s : ServiceICS) : Option GoErr × ServiceICS × List ICSEvent :=
  let r1 := disableDelLoop env s s.ifaces
  let e2 :=
    match env.powerShell (restoreCmdOf r1.2.1) with
    | Except.ok _ => none
    | Except.error e => some (GoErr.wrapped "failed to revert RemoteAccess service startup type" e)
  let rp := getPublicInterfaceName env
  let ifaceName :=
    match rp.1 with
    | Except.ok n => n
    | Except.error _ => ""
  let e3 :=
    match rp.1 with
    | Except.ok _ => none
    | Except.error e => some (GoErr.wrapped "failed to get public interface name" e)
  let r4 := applySharingConfig env disableSharing ifaceName
  let e4 := (r4.1).map (GoErr.wrapped "failed to disable internet connection sharing")
  (firstErr (firstErr (firstErr r1.1 e2) e3) e4, r1.2.1,
   ICSEvent.ifacesIterate :: r1.2.2 ++
     ICSEvent.statusRead :: ICSEvent.runPS (restoreCmdOf r1.2.1) :: (rp.2 ++ r4.2))

/-- The per-entry Del outcomes Disable would observe, in iteration order. -/
def disableDelErrs (env : ICSEnv) (s : ServiceICS) :
    List (String × RuleForwarding) → List (Option GoErr)
  | [] => []
  | (_, rule) :: rest =>
    (icsDel env s rule).1 :: disableDelErrs env (icsDel env s rule).2.1 rest

/-- The concatenated event traces of the per-entry Del calls of Disable. -/
def disableDelTrace (env : ICSEnv) (s : ServiceICS) :
    List (String × RuleForwarding) → List ICSEvent
  | [] => []
  | (_, rule) :: rest =>
    (icsDel env s rule).2.2 ++ disableDelTrace env (icsDel env s rule).2.1 rest

/-- Outcome of the RemoteAccess startup mode restore phase of Disable. -/
def restoreErrOf (env : ICSEnv) (s : ServiceICS) : Option GoErr :=
  match env.powerShell (restoreCmdOf s) with
  | Except.ok _ => none
  | Except.error e => some (GoErr.wrapped "failed to revert RemoteAccess service startup type" e)

/-- The interface name the final phase of Disable uses: the resolved public
interface, or the empty string when resolution failed. -/
def pubIfaceNameOr (env : ICSEnv) : String :=
  match (getPublicInterfaceName env).1 with
  | Except.ok n => n
  | Except.error _ => ""

/-- Outcome of the public interface resolution phase of Disable. -/
def resolveErrOf (env : ICSEnv) : Option GoErr :=
  match (getPublicInterfaceName env).1 with
  | Except.ok _ => none
  | Except.error e => some (GoErr.wrapped "failed to get public interface name" e)

/-- Outcome of the final disable sharing phase of Disable. -/
def shareErrOf (env : ICSEnv) : Option GoErr :=
  ((applySharingConfig env disableSharing (pubIfaceNameOr env)).1).map
    (GoErr.wrapped "failed to disable internet connection sharing")

/-- Whether every access to the shared ifaces map and remoteAccessStatus
field in an event trace happens while the mutex is held, tracked from the
given lock depth. -/
def accessesLockedFrom : Nat → List ICSEvent → Bool
  | d, [] => true
  | d, ICSEvent.lockEv :: rest => accessesLockedFrom (d + 1) rest
  | d, ICSEvent.unlockEv :: rest => accessesLockedFrom (d - 1) rest
  | d, ICSEvent.runPS _ :: rest => accessesLockedFrom d rest
  | d, _ :: rest => decide (0 < d) && accessesLockedFrom d rest

/-- Whether every shared field access of a trace is under the lock. -/
def accessesLocked (tr : List ICSEvent) : Bool :=
  accessesLockedFrom 0 tr

/-! ### Helper predicates and lemmas for the maintenance loop -/

def isDelEvent : MapEvent → Bool
  | MapEvent.delCall _ _ _ => true
  | _ => false

def isMetricEvent : MapEvent → Bool
  | MapEvent.sentSuccess => true
  | MapEvent.sentFail _ => true
  | _ => false

theorem mapIter_counts (g : Nat → Nat → Option GoErr) (i : Nat) (protocol : String)
    (extPort intPort : Nat) (name : String) :
    (mapIter g i protocol extPort intPort name).countP isDelEvent = 0 ∧
    (mapIter g i protocol extPort intPort name).countP isMetricEvent = 1 := by
  unfold mapIter addMappingTr
  rcases h1 : g i mapTimeout with _ | e1 <;> rcases h2 : g i 0 with _ | e2 <;>
    simp [isDelEvent, isMetricEvent, List.countP_cons, List.countP_nil]

theorem mapPortLoop_counts (g : Nat → Nat → Option GoErr) (protocol : String)
    (extPort intPort : Nat) (name : String) :
    ∀ k i, (mapPortLoop g protocol extPort intPort name i k).countP isDelEvent = 0 ∧
      (mapPortLoop g protocol extPort intPort name i k).countP isMetricEvent = k + 1
  | 0, i => by
    simpa [mapPortLoop] using mapIter_counts g i protocol extPort intPort name
  | Nat.succ k, i => by
    have h1 := mapIter_counts g i protocol extPort intPort name
    have h2 := mapPortLoop_counts g protocol extPort intPort name k (i + 1)
    simp [mapPortLoop, List.countP_append, h1.1, h1.2, h2.1, h2.2]
    omega

/-- C1: addMapping (EstablishMapping) first calls AddMapping with the timed
20 minute lease; it calls AddMapping a second time, with lease 0, exactly
when the first call returned an error; it returns nil when either attempt
succeeds, and when both fail it returns the second attempt error wrapped
with the port number. -/
theorem establish_mapping_lease_fallback (add : Nat → Option GoErr) (protocol : String)
    (extPort intPort : Nat) (name : String) :
    (addMappingTr add protocol extPort intPort name).2.head? =
      some (MapEvent.addCall protocol extPort intPort name (20 * goMinute)) ∧
    ((addMappingTr add protocol extPort intPort name).2.length = 2 ↔ add mapTimeout ≠ none) ∧
    ((addMappingTr add protocol extPort intPort name).1 = none ↔
      (add mapTimeout = none ∨ add 0 = none)) ∧
    (add mapTimeout = none →
      (addMappingTr add protocol extPort intPort name).2 =
        [MapEvent.addCall protocol extPort intPort name mapTimeout]) ∧
    (∀ e1 e2, add mapTimeout = some e1 → add 0 = some e2 →
      (addMappingTr add protocol extPort intPort name).1 =
        some (GoErr.portErr extPort e2) ∧
      (addMappingTr add protocol extPort intPort name).2 =
        [MapEvent.addCall protocol extPort intPort name mapTimeout,
         MapEvent.addCall protocol extPort intPort name 0]) := by
  unfold addMappingTr
  rcases h1 : add mapTimeout with _ | e1 <;> rcases h2 : add 0 with _ | e2 <;>
    simp [mapTimeout, h1, h2]

def addW : Nat → Option GoErr := fun lease =>
  if lease == 0 then none else some (GoErr.errorNew "gateway rejects timed leases")

theorem establish_mapping_lease_fallback_witness :
    addW mapTimeout = some (GoErr.errorNew "gateway rejects timed leases") ∧
    addW 0 = none ∧
    (addMappingTr addW "UDP" 4050 4050 "mysterium").1 = none :=
  ⟨rfl, rfl,
   ((establish_mapping_lease_fallback addW "UDP" 4050 4050 "mysterium").2.2.1).mpr
     (Or.inr rfl)⟩

/-- C2: a run of the mapPort maintenance loop never exits because a mapping
attempt failed: for every gateway behaviour the run performs exactly
cancelAt + 1 iterations (one metric notification each), terminates only once
the cancel signal is observed, performs exactly one DeleteMapping call, as
its final action, with no AddMapping call after cancellation is observed,
and neither the sink return values nor the DeleteMapping error are
propagated into the run. -/
theorem map_port_terminates_only_on_cancel (g : Nat → Nat → Option GoErr)
    (sinkRes : Nat → Option GoErr) (delRes : Option GoErr) (cancelAt : Nat)
    (protocol : String) (extPort intPort : Nat) (name : String) :
    (mapPortRun g sinkRes delRes cancelAt protocol extPort intPort name).countP
      isDelEvent = 1 ∧
    (mapPortRun g sinkRes delRes cancelAt protocol extPort intPort name).getLast? =
      some (MapEvent.delCall protocol extPort intPort) ∧
    (mapPortRun g sinkRes delRes cancelAt protocol extPort intPort name).countP
      isMetricEvent = cancelAt + 1 ∧
    (∀ e ∈ (mapPortRun g sinkRes delRes cancelAt protocol extPort intPort name).dropLast,
      isDelEvent e = false) ∧
    (∀ sinkRes2 delRes2,
      mapPortRun g sinkRes2 delRes2 cancelAt protocol extPort intPort name =
        mapPortRun g sinkRes delRes cancelAt protocol extPort intPort name) := by
  have h := mapPortLoop_counts g protocol extPort intPort name cancelAt 0
  refine ⟨?_, ?_, ?_, ?_, fun _ _ => rfl⟩
  · simp [mapPortRun, List.countP_append, h.1, isDelEvent]
  · simp [mapPortRun]
  · simp [mapPortRun, List.countP_append, h.2, isMetricEvent]
  · intro e he
    rw [mapPortRun, List.dropLast_concat] at he
    have h0 := List.countP_eq_zero.mp h.1 e he
    simpa using h0

theorem map_port_terminates_only_on_cancel_witness :
    (mapPortRun (fun _ _ => some (GoErr.errorNew "no gateway")) (fun _ => none) none 2
      "UDP" 4050 4050 "mysterium").countP isDelEvent = 1 ∧
    (mapPortRun (fun _ _ => some (GoErr.errorNew "no gateway")) (fun _ => none) none 2
      "UDP" 4050 4050 "mysterium").countP isMetricEvent = 3 :=
  ⟨(map_port_terminates_only_on_cancel (fun _ _ => some (GoErr.errorNew "no gateway"))
      (fun _ => none) none 2 "UDP" 4050 4050 "mysterium").1,
   (map_port_terminates_only_on_cancel (fun _ _ => some (GoErr.errorNew "no gateway"))
      (fun _ => none) none 2 "UDP" 4050 4050 "mysterium").2.2.1⟩

/-- C8: every iteration of the maintenance loop sends exactly one metrics
notification, the success event when the mapping attempt returned nil and
the failure event carrying the error otherwise, and the values returned by
the sink (and by DeleteMapping) are never propagated and do not affect the
run. -/
theorem map_port_metrics_per_iteration (g : Nat → Nat → Option GoErr) (i : Nat)
    (protocol : String) (extPort intPort : Nat) (name : String) :
    (mapIter g i protocol extPort intPort name).countP isMetricEvent = 1 ∧
    ((addMappingTr (g i) protocol extPort intPort name).1 = none →
      (mapIter g i protocol extPort intPort name).getLast? = some MapEvent.sentSuccess) ∧
    (∀ e, (addMappingTr (g i) protocol extPort intPort name).1 = some e →
      (mapIter g i protocol extPort intPort name).getLast? = some (MapEvent.sentFail e)) ∧
    (∀ sinkRes sinkRes2 delRes delRes2 cancelAt,
      mapPortRun g sinkRes delRes cancelAt protocol extPort intPort name =
        mapPortRun g sinkRes2 delRes2 cancelAt protocol extPort intPort name) := by
  refine ⟨(mapIter_counts g i protocol extPort intPort name).2, ?_, ?_,
    fun _ _ _ _ _ => rfl⟩
  · intro h
    unfold mapIter
    rcases hm : addMappingTr (g i) protocol extPort intPort name with ⟨res, calls⟩
    rw [hm] at h
    simp at h
    subst h
    simp
  · intro e h
    unfold mapIter
    rcases hm : addMappingTr (g i) protocol extPort intPort name with ⟨res, calls⟩
    rw [hm] at h
    simp at h
    subst h
    simp

theorem map_port_metrics_per_iteration_witness :
    (addMappingTr ((fun _ _ => none : Nat → Nat → Option GoErr) 0)
      "UDP" 4050 4050 "mysterium").1 = none ∧
    (mapIter (fun _ _ => none) 0 "UDP" 4050 4050 "mysterium").getLast? =
      some MapEvent.sentSuccess :=
  ⟨rfl,
   (map_port_metrics_per_iteration (fun _ _ => none) 0 "UDP" 4050 4050 "mysterium").2.1 rfl⟩

/-- C7: GetPortMappingFunc spawns no maintenance task and returns the noop
cancel handle (whose invocation leaves the channel state untouched) exactly
when the public IP equals the outbound IP, and delegates to PortMapping
whenever they differ. -/
theorem get_port_mapping_func_policy (pubIP outIP protocol : String) (port : Nat)
    (description : String) :
    (((GetPortMappingFuncModel pubIP outIP protocol port description).1 = none ∧
      (GetPortMappingFuncModel pubIP outIP protocol port description).2 =
        CancelHandle.noopHandle) ↔ pubIP = outIP) ∧
    (pubIP ≠ outIP →
      GetPortMappingFuncModel pubIP outIP protocol port description =
        PortMappingSpawn protocol port description) ∧
    (∀ st, runCancel CancelHandle.noopHandle st = Except.ok st) := by
  by_cases h : pubIP = outIP <;>
    simp [GetPortMappingFuncModel, PortMappingSpawn, runCancel, h]

theorem get_port_mapping_func_policy_witness :
    (("1.2.3.4" : String) = "1.2.3.4" → True) ∧
    (GetPortMappingFuncModel "1.2.3.4" "1.2.3.4" "UDP" 4050 "mysterium").1 = none ∧
    GetPortMappingFuncModel "1.2.3.4" "10.0.0.1" "UDP" 4050 "mysterium" =
      PortMappingSpawn "UDP" 4050 "mysterium" :=
  ⟨fun _ => trivial,
   (((get_port_mapping_func_policy "1.2.3.4" "1.2.3.4" "UDP" 4050 "mysterium").1).mpr
     rfl).1,
   (get_port_mapping_func_policy "1.2.3.4" "10.0.0.1" "UDP" 4050 "mysterium").2.1
     (by decide)⟩

/-- C10: every mapping created through the public PortMapping entry point
passes its single port argument as both the external and the internal port
of the spawned maintenance task, so the two ports always coincide even
though the gateway capability accepts distinct values. -/
theorem port_mapping_single_port (protocol : String) (port : Nat) (name : String) :
    (PortMappingSpawn protocol port name).1 =
      some { protocol := protocol, extPort := port, intPort := port, name := name } ∧
    (PortMappingSpawn protocol port name).1.map MapperArgs.extPort =
      (PortMappingSpawn protocol port name).1.map MapperArgs.intPort :=
  ⟨rfl, rfl⟩

/-- C4 counterexample: the cancel handle returned by PortMapping is the
closure closing the quit channel, and invoking it twice from an open channel
panics at the second invocation (close of an already closed channel), so
Cancel is not idempotent and not panic free. -/
theorem cancel_second_call_panics :
    (PortMappingSpawn "UDP" 4050 "mysterium").2 = CancelHandle.closeHandle ∧
    cancelTwice = Except.error GoPanic.closeOfClosedChannel :=
  ⟨rfl, rfl⟩

/-- C4 amended: the cancel handle returned by PortMapping never blocks
(modelled as a total function on the channel state) and its first invocation
closes the quit channel, but it is not idempotent: a second invocation
closes an already closed channel, which panics. -/
theorem cancel_first_closes_second_panics (protocol : String) (port : Nat) (name : String) :
    (PortMappingSpawn protocol port name).2 = CancelHandle.closeHandle ∧
    runCancel CancelHandle.closeHandle false = Except.ok true ∧
    runCancel CancelHandle.closeHandle true = Except.error GoPanic.closeOfClosedChannel :=
  ⟨rfl, rfl, rfl⟩

/-! ### Helper lemmas for the sharing service -/

theorem firstErr_assoc (a b c : Option GoErr) :
    firstErr (firstErr a b) c = firstErr a (firstErr b c) := by
  cases a <;> rfl

theorem firstErr_none_right (a : Option GoErr) : firstErr a none = a := by
  cases a <;> rfl

theorem firstSome_append (a b : List (Option GoErr)) :
    firstSome (a ++ b) = firstErr (firstSome a) (firstSome b) := by
  induction a with
  | nil => rfl
  | cons o rest ih => cases o <;> simp [firstSome, firstErr, ih]

theorem icsDel_status (env : ICSEnv) (s : ServiceICS) (rule : RuleForwarding) :
    (icsDel env s rule).2.1.remoteAccessStatus = s.remoteAccessStatus := by
  unfold icsDel
  rcases hg : getInterfaceBySubnet env rule.SourceAddress with e | n
  · simp
  · rcases ha : applySharingConfig env disableSharing n with ⟨eo, tr⟩
    cases eo <;> simp [ha]

theorem disableDelLoop_spec (env : ICSEnv) :
    ∀ (l : List (String × RuleForwarding)) (s : ServiceICS),
      (disableDelLoop env s l).1 = firstSome (disableDelErrs env s l) ∧
      (disableDelLoop env s l).2.2 = disableDelTrace env s l ∧
      (disableDelLoop env s l).2.1.remoteAccessStatus = s.remoteAccessStatus
  | [], s => ⟨rfl, rfl, rfl⟩
  | (k, rule) :: rest, s => by
    have ih := disableDelLoop_spec env rest (icsDel env s rule).2.1
    have hs := icsDel_status env s rule
    refine ⟨?_, ?_, ?_⟩
    · simp [disableDelLoop, disableDelErrs, firstSome, ih.1]
    · simp [disableDelLoop, disableDelTrace, ih.2.1]
    · simp [disableDelLoop, ih.2.2, hs]

theorem disableDelErrs_length (env : ICSEnv) :
    ∀ (l : List (String × RuleForwarding)) (s : ServiceICS),
      (disableDelErrs env s l).length = l.length
  | [], _ => rfl
  | (k, rule) :: rest, s => by
    simp [disableDelErrs, disableDelErrs_length env rest]

/-- C3: Disable attempts Del for every recorded interface even when Del
calls fail (one per-entry outcome per recorded entry), then attempts the
RemoteAccess startup mode restore, then the public interface resolution and
the disable sharing action on it (the trace contains the events of every
phase unconditionally), and it returns the first error encountered across
all phases in program order, or nil when every step succeeded. -/
theorem disable_best_effort (env : ICSEnv) (s : ServiceICS) :
    (icsDisable env s).1 =
      firstSome (disableDelErrs env s s.ifaces ++
        [restoreErrOf env s, resolveErrOf env, shareErrOf env]) ∧
    (icsDisable env s).2.2 =
      ICSEvent.ifacesIterate :: disableDelTrace env s s.ifaces ++
        ICSEvent.statusRead :: ICSEvent.runPS (restoreCmdOf s) ::
        ((getPublicInterfaceName env).2 ++
          (applySharingConfig env disableSharing (pubIfaceNameOr env)).2) ∧
    (disableDelErrs env s s.ifaces).length = s.ifaces.length := by
  obtain ⟨h1, h2, h3⟩ := disableDelLoop_spec env s.ifaces s
  have hcmd : restoreCmdOf (disableDelLoop env s s.ifaces).2.1 = restoreCmdOf s := by
    simp [restoreCmdOf, h3]
  refine ⟨?_, ?_, disableDelErrs_length env s.ifaces s⟩
  · unfold icsDisable
    rw [firstSome_append]
    simp only [hcmd, h1]
    simp only [firstSome, firstErr_none_right, ← firstErr_assoc]
    unfold restoreErrOf resolveErrOf shareErrOf pubIfaceNameOr
    rfl
  · unfold icsDisable
    simp only [hcmd, h2]
    unfold pubIfaceNameOr
    rfl

theorem applySharingConfig_trace (env : ICSEnv) (action ifaceName : String) :
    (applySharingConfig env action ifaceName).2 = [] ∨
    ∃ c, (applySharingConfig env action ifaceName).2 = [ICSEvent.runPS c] := by
  unfold applySharingConfig
  split
  · exact Or.inl rfl
  · split
    · exact Or.inl rfl
    · rcases env.powerShell (icsScript ifaceName action) with e | o <;>
        exact Or.inr ⟨icsScript ifaceName action, rfl⟩

theorem accessesLockedFrom_runPS_shape (d : Nat) (tr tail : List ICSEvent)
    (h : tr = [] ∨ ∃ c, tr = [ICSEvent.runPS c]) :
    accessesLockedFrom d (tr ++ tail) = accessesLockedFrom d tail := by
  rcases h with h | ⟨c, h⟩ <;> subst h <;> rfl

theorem accessesLockedFrom_runPS_only (d : Nat) (tr : List ICSEvent)
    (h : tr = [] ∨ ∃ c, tr = [ICSEvent.runPS c]) :
    accessesLockedFrom d tr = true := by
  rcases h with h | ⟨c, h⟩ <;> subst h <;> rfl

/-- C5 amended: the map mutations of Add and Del are the only shared field
accesses performed under the mutex: every access in an Add or Del trace is
under the lock, but Disable always iterates the live ifaces map and reads
the saved startup mode without holding the lock (no snapshot is taken under
the lock), for every environment, state and rule. -/
theorem ics_add_del_locked_disable_unlocked (env : ICSEnv) (s : ServiceICS)
    (rule : RuleForwarding) :
    accessesLocked (icsAdd env s rule).2.2 = true ∧
    accessesLocked (icsDel env s rule).2.2 = true ∧
    accessesLocked (icsDisable env s).2.2 = false := by
  refine ⟨?_, ?_, rfl⟩
  · unfold icsAdd
    split
    · rfl
    next n hg =>
      split
      next e tr ha =>
        have hsh := applySharingConfig_trace env enablePrivateSharing n
        rw [ha] at hsh
        exact accessesLockedFrom_runPS_only 0 tr (by simpa using hsh)
      next tr ha =>
        have hsh := applySharingConfig_trace env enablePrivateSharing n
        rw [ha] at hsh
        show accessesLockedFrom 0
          (tr ++ [ICSEvent.lockEv, ICSEvent.ifacesWrite n, ICSEvent.unlockEv]) = true
        rw [accessesLockedFrom_runPS_shape 0 tr _ (by simpa using hsh)]
        rfl
  · unfold icsDel
    split
    · rfl
    next n hg =>
      split
      next e tr ha =>
        have hsh := applySharingConfig_trace env disableSharing n
        rw [ha] at hsh
        exact accessesLockedFrom_runPS_only 0 tr (by simpa using hsh)
      next tr ha =>
        have hsh := applySharingConfig_trace env disableSharing n
        rw [ha] at hsh
        show accessesLockedFrom 0
          (tr ++ [ICSEvent.lockEv, ICSEvent.ifacesDelete n, ICSEvent.unlockEv]) = true
        rw [accessesLockedFrom_runPS_shape 0 tr _ (by simpa using hsh)]
        rfl

def envNoLock : ICSEnv :=
  { parseCIDR := fun _ => Except.error (GoErr.errorNew "invalid CIDR address"),
    netInterfaces := Except.ok [],
    powerShell := fun _ => Except.ok "" }

def stateNoLock : ServiceICS :=
  { ifaces := [("Ethernet", { SourceAddress := "10.0.0.0/24" })],
    remoteAccessStatus := "Manual" }

/-- C5 counterexample: at a concrete environment and a service state with one
recorded interface, the Disable trace accesses the shared ifaces map (the
range iteration) and the saved startup mode outside the lock, so not every
read of the shared fields happens under the exclusive lock and Disable does
not iterate a snapshot taken under the lock. -/
theorem disable_accesses_shared_state_unlocked :
    accessesLocked (icsDisable envNoLock stateNoLock).2.2 = false := rfl

theorem findIfaceBySubnet_no_match (ipnet : Nat → Bool) :
    ∀ l : List NetIface,
      (∀ i ∈ l, ∃ as, i.addrs = Except.ok as ∧ containsGo ipnet as = false) →
      findIfaceBySubnet ipnet l = Except.error (GoErr.errorNew "interface not found")
  | [], _ => rfl
  | i :: rest, h => by
    obtain ⟨as, ha, hc⟩ := h i (List.mem_cons_self i rest)
    have ih := findIfaceBySubnet_no_match ipnet rest (fun j hj => h j (List.mem_cons_of_mem i hj))
    simp [findIfaceBySubnet, ha, hc, ih]

/-- C6: Add is all or nothing: when interface resolution fails (in
particular, when every enumerated interface has addresses and none of them
lies in the subnet of the rule, which yields the interface not found error)
or the sharing action fails, Add returns a non-nil error and leaves the
state untouched; the entry for the resolved interface name is recorded
exactly when Add returns nil. -/
theorem add_all_or_nothing (env : ICSEnv) (s : ServiceICS) (rule : RuleForwarding) :
    ((icsAdd env s rule).1 ≠ none → (icsAdd env s rule).2.1 = s) ∧
    ((icsAdd env s rule).1 = none →
      ∃ name, getInterfaceBySubnet env rule.SourceAddress = Except.ok name ∧
        (icsAdd env s rule).2.1 = { s with ifaces := mapSet s.ifaces name rule }) ∧
    (∀ p l, env.parseCIDR rule.SourceAddress = Except.ok p →
      env.netInterfaces = Except.ok l →
      (∀ i ∈ l, ∃ as, i.addrs = Except.ok as ∧ containsGo p as = false) →
      (icsAdd env s rule).1 =
        some (GoErr.wrapped "failed to find suitable interface"
          (GoErr.errorNew "interface not found")) ∧
      (icsAdd env s rule).2.1 = s) := by
  refine ⟨?_, ?_, ?_⟩
  · intro h
    rcases hg : getInterfaceBySubnet env rule.SourceAddress with e | n
    · simp [icsAdd, hg]
    · rcases ha : applySharingConfig env enablePrivateSharing n with ⟨eo, tr⟩
      cases eo with
      | none => exfalso; apply h; simp [icsAdd, hg, ha]
      | some e => simp [icsAdd, hg, ha]
  · intro h
    rcases hg : getInterfaceBySubnet env rule.SourceAddress with e | n
    · simp [icsAdd, hg] at h
    · rcases ha : applySharingConfig env enablePrivateSharing n with ⟨eo, tr⟩
      cases eo with
      | some e => simp [icsAdd, hg, ha] at h
      | none => exact ⟨n, rfl, by simp [icsAdd, hg, ha]⟩
  · intro p l hp hl hno
    have hg : getInterfaceBySubnet env rule.SourceAddress =
        Except.error (GoErr.errorNew "interface not found") := by
      unfold getInterfaceBySubnet
      rw [hp, hl]
      exact findIfaceBySubnet_no_match p l hno
    simp [icsAdd, hg]

def envNoMatch : ICSEnv :=
  { parseCIDR := fun _ => Except.ok (fun _ => false),
    netInterfaces :=
      Except.ok [{ index := 1, name := "eth0", addrs := Except.ok [NetAddr.ipAddr 167772161] }],
    powerShell := fun _ => Except.ok "" }

def stateEmpty : ServiceICS := { ifaces := [], remoteAccessStatus := "" }

def ruleNoMatch : RuleForwarding := { SourceAddress := "192.168.42.0/24" }

theorem add_all_or_nothing_witness :
    (icsAdd envNoMatch stateEmpty ruleNoMatch).1 =
      some (GoErr.wrapped "failed to find suitable interface"
        (GoErr.errorNew "interface not found")) ∧
    (icsAdd envNoMatch stateEmpty ruleNoMatch).2.1 = stateEmpty :=
  (add_all_or_nothing envNoMatch stateEmpty ruleNoMatch).2.2 (fun _ => false) _ rfl rfl
    (by
      intro i hi
      simp only [List.mem_singleton] at hi
      subst hi
      exact ⟨[NetAddr.ipAddr 167772161], rfl, rfl⟩)

theorem filter_mapSet_aux (k : String) (v : RuleForwarding) :
    ∀ m : List (String × RuleForwarding),
      (m.map (fun p => if p.1 == k then (k, v) else p)).filter (fun p => p.1 != k) =
        m.filter (fun p => p.1 != k)
  | [] => rfl
  | p :: rest => by
    have ih := filter_mapSet_aux k v rest
    by_cases hp : p.1 = k <;> simp [List.filter_cons, hp] <;> simpa using ih

theorem mapDel_mapSet (m : List (String × RuleForwarding)) (k : String) (v : RuleForwarding) :
    mapDel (mapSet m k v) k = mapDel m k := by
  unfold mapSet mapDel
  split
  · exact filter_mapSet_aux k v m
  · simp [List.filter_append, List.filter_cons]

theorem icsScript_action_inj (n a b : String) (h : icsScript n a = icsScript n b) : a = b := by
  unfold icsScript at h
  have h2 := congrArg String.data h
  simp only [String.data_append, List.append_assoc] at h2
  exact String.ext
    (List.append_cancel_left (List.append_cancel_left (List.append_cancel_left h2)))

theorem icsScript_enable_ne_disable (n : String) :
    icsScript n enablePrivateSharing ≠ icsScript n disableSharing := fun h =>
  absurd (icsScript_action_inj n enablePrivateSharing disableSharing h) (by decide)

/-- C9: for a rule whose subnet resolves to a (nonempty) local interface
name, a successful Add followed by a successful Del of the same rule leaves
the ifaces map without that interface entry (empty when the map was empty
before), and the disable sharing action is dispatched exactly once, for the
very interface name Add resolved. -/
theorem add_then_del_roundtrip (env : ICSEnv) (s : ServiceICS) (rule : RuleForwarding)
    (name : String)
    (hres : getInterfaceBySubnet env rule.SourceAddress = Except.ok name)
    (hlen : ¬name.length = 0)
    (hen : ∃ o, env.powerShell (icsScript name enablePrivateSharing) = Except.ok o)
    (hdis : ∃ o, env.powerShell (icsScript name disableSharing) = Except.ok o) :
    (icsAdd env s rule).1 = none ∧
    (icsDel env (icsAdd env s rule).2.1 rule).1 = none ∧
    (icsDel env (icsAdd env s rule).2.1 rule).2.1 =
      { s with ifaces := mapDel s.ifaces name } ∧
    (s.ifaces = [] → (icsDel env (icsAdd env s rule).2.1 rule).2.1.ifaces = []) ∧
    ((icsAdd env s rule).2.2 ++ (icsDel env (icsAdd env s rule).2.1 rule).2.2) =
      [ICSEvent.runPS (icsScript name enablePrivateSharing), ICSEvent.lockEv,
       ICSEvent.ifacesWrite name, ICSEvent.unlockEv,
       ICSEvent.runPS (icsScript name disableSharing), ICSEvent.lockEv,
       ICSEvent.ifacesDelete name, ICSEvent.unlockEv] ∧
    ((icsAdd env s rule).2.2 ++ (icsDel env (icsAdd env s rule).2.1 rule).2.2).countP
      (fun e => e == ICSEvent.runPS (icsScript name disableSharing)) = 1 := by
  obtain ⟨o1, ho1⟩ := hen
  obtain ⟨o2, ho2⟩ := hdis
  have hactEn : ¬enablePrivateSharing.length = 0 := by decide
  have hactDis : ¬disableSharing.length = 0 := by decide
  have ha : applySharingConfig env enablePrivateSharing name =
      (none, [ICSEvent.runPS (icsScript name enablePrivateSharing)]) := by
    unfold applySharingConfig
    rw [if_neg hactEn, if_neg hlen, ho1]
  have hd : applySharingConfig env disableSharing name =
      (none, [ICSEvent.runPS (icsScript name disableSharing)]) := by
    unfold applySharingConfig
    rw [if_neg hactDis, if_neg hlen, ho2]
  have hAdd : icsAdd env s rule =
      (none, { s with ifaces := mapSet s.ifaces name rule },
       [ICSEvent.runPS (icsScript name enablePrivateSharing), ICSEvent.lockEv,
        ICSEvent.ifacesWrite name, ICSEvent.unlockEv]) := by
    unfold icsAdd
    simp only [hres, ha]
    rfl
  have hDel : icsDel env (icsAdd env s rule).2.1 rule =
      (none, { s with ifaces := mapDel (mapSet s.ifaces name rule) name },
       [ICSEvent.runPS (icsScript name disableSharing), ICSEvent.lockEv,
        ICSEvent.ifacesDelete name, ICSEvent.unlockEv]) := by
    rw [hAdd]
    unfold icsDel
    simp only [hres, hd]
    rfl
  refine ⟨by rw [hAdd], by rw [hDel], ?_, ?_, ?_, ?_⟩
  · rw [hDel, mapDel_mapSet]
  · intro h
    rw [hDel]
    show mapDel (mapSet s.ifaces name rule) name = []
    rw [mapDel_mapSet, h]
    rfl
  · rw [hDel, hAdd]
    rfl
  · rw [hDel, hAdd]
    simp [List.countP_cons, icsScript_enable_ne_disable name]

def envShare : ICSEnv :=
  { parseCIDR := fun _ => Except.ok (fun _ => true),
    netInterfaces :=
      Except.ok
        [{ index := 7, name := "Ethernet 2", addrs := Except.ok [NetAddr.ipNet 167772161] }],
    powerShell := fun _ => Except.ok "" }

def ruleShare : RuleForwarding := { SourceAddress := "10.0.0.0/24" }

def stateShare : ServiceICS := { ifaces := [], remoteAccessStatus := "Manual" }

theorem add_then_del_roundtrip_witness :
    (icsAdd envShare stateShare ruleShare).1 = none ∧
    (icsDel envShare (icsAdd envShare stateShare ruleShare).2.1 ruleShare).2.1.ifaces = [] :=
  have h := add_then_del_roundtrip envShare stateShare ruleShare "Ethernet 2" rfl
    (by decide) ⟨"", rfl⟩ ⟨"", rfl⟩
  ⟨h.1, h.2.2.2.1 rfl⟩
